import Mathlib

/-!
Verification of the daily-training-decision-engine client and of the
decision-engine boundary it talks to.

The Expo/React-Native client lives under `frontend/app` (`index.tsx`,
`session.tsx`) and `src/store/trainingStore.ts`.  Its state is the zustand
`TrainingStore`; its handlers (`handleDiscard`, `handleReroll`, `handleSwap`,
`handleComplete`, `handleBucketSelect`, `generateSession`,
`toggleCooldownOverride`) are embedded below as pure functions from store
state (plus the network response they receive, where one is read) to the new
store state together with the list of HTTP requests they issue.

The backend engine (`backend/server.py`) is not part of the sources at hand;
where a claim depends on it, the relevant handler is modelled from the spec
(each such definition carries a doc comment starting `Modelled from the
spec:`).
-/

/-- TS `feeling: 'bad' | 'ok' | 'great'`. -/
inductive Feeling | bad | ok | great
deriving DecidableEq, Repr

/-- TS `sleep: 'bad' | 'good'`. -/
inductive Sleep | bad | good
deriving DecidableEq, Repr

/-- TS `pain: 'none' | 'present'`. -/
inductive Pain | none | present
deriving DecidableEq, Repr

/-- TS `time_available: '20-30' | '30-45' | '45-60'`. -/
inductive TimeAvailable | t20_30 | t30_45 | t45_60
deriving DecidableEq, Repr

/-- TS `equipment: 'home' | 'minimal' | 'bodyweight'`. -/
inductive Equip | home | minimal | bodyweight
deriving DecidableEq, Repr

/-- TS `day_type: 'easy' | 'medium' | 'hard'`. -/
inductive DayType | easy | medium | hard
deriving DecidableEq, Repr

/-- TS `week_mode: 'A' | 'B'`. -/
inductive WeekMode | A | B
deriving DecidableEq, Repr

/-- TS `power_frequency: 'weekly' | 'fortnightly'`. -/
inductive PowerFrequency | weekly | fortnightly
deriving DecidableEq, Repr

/-- TS `feedback: 'good' | 'not_good'` (argument of `handleComplete`). -/
inductive Feedback | good | not_good
deriving DecidableEq, Repr

/-- The `Questionnaire` interface of `trainingStore.ts`. -/
structure Questionnaire where
  feeling : Feeling
  sleep : Sleep
  pain : Pain
  time_available : TimeAvailable
  equipment : Equip
deriving DecidableEq, Repr

/-- The `Exercise` interface of `session.tsx` / `trainingStore.ts`:
`reps`, `hold_time`, `time`, `tempo` and `notes` are optional,
`prescription_type` and `category` are plain strings. -/
structure Exercise where
  id : String
  name : String
  category : String
  prescription_type : String
  load_level : String
  protocol_id : String
  protocol_name : String
  protocol_description : String
  sets : String
  reps : Option String
  hold_time : Option String
  time : Option String
  rest : String
  tempo : Option String
  notes : Option String
deriving DecidableEq, Repr

/-- The `UserState` interface of `trainingStore.ts`. -/
structure UserState where
  id : String
  next_priority_bucket : String
  week_mode : WeekMode
  cooldown_counter : Nat
  cooldown_override : Bool
  power_last_used : Option String
  last_hard_day : Bool
  power_frequency : PowerFrequency
deriving DecidableEq, Repr

/-- The `Session` interface of `trainingStore.ts`. -/
structure Session where
  id : String
  timestamp : String
  day_type : DayType
  priority_bucket : String
  exercises : List Exercise
  time_slot : TimeAvailable
  equipment : Equip
  week_mode : WeekMode
deriving DecidableEq, Repr

/-- The zustand `TrainingStore` state (`trainingStore.ts`): the four data
fields; the setters are record updates. -/
structure Store where
  currentSession : Option Session
  userState : Option UserState
  lastQuestionnaire : Option Questionnaire
  overrideBucket : Option String
deriving DecidableEq, Repr

/-- One HTTP request issued by a client handler, identified by endpoint and
JSON body. -/
inductive Request
  | putSettingsOverride (cooldown_override : Bool)
  | postComplete (session_id : String) (feedback : Feedback)
  | postReroll (q : Questionnaire)
  | postSwap (session_id : String) (exercise_id : String) (equipment : Equip)
  | postGenerate (q : Questionnaire) (override_bucket : Option String)
deriving DecidableEq, Repr

/-- JS `x || d` on an optional string: `null`/`undefined` and the empty
string are falsy and fall through to the default. -/
def jsOr (x : Option String) (d : String) : String :=
  match x with
  | Option.none => d
  | Option.some s => if s = "" then d else s

/-- JS `x || undefined` on an optional string: the empty string is
collapsed to `undefined`. -/
def jsOrUndef (x : Option String) : Option String :=
  match x with
  | Option.none => Option.none
  | Option.some s => if s = "" then Option.none else Option.some s

/-- `getVolumeDisplay` of `session.tsx` (lines 211-232): picks the volume
field from `prescription_type` alone, with literal fallbacks
`'10-20s'` / `'30-60s'` / `'5'`. -/
def getVolumeDisplay (exercise : Exercise) : String × String :=
  let prescriptionType := exercise.prescription_type
  if prescriptionType = "ISOMETRIC_HOLD" then
    ("Hold", jsOr exercise.hold_time "10-20s")
  else if prescriptionType = "CARRY_TIME" ∨ prescriptionType = "CRAWL_TIME" then
    ("Time", jsOr exercise.time "30-60s")
  else
    ("Reps", jsOr exercise.reps "5")

/-- `handleDiscard` of `session.tsx` (lines 160-179), at the moment the user
presses the destructive "Discard" button of the alert: it runs
`setCurrentSession(null)` and navigates home.  No fetch is issued; the
returned request list is what goes over the network. -/
def handleDiscard (s : Store) : Store × List Request :=
  ({ s with currentSession := Option.none }, [])

/-- `handleComplete` of `session.tsx` (lines 139-158): POSTs
`{session_id, feedback}` to `/api/complete`, then clears `currentSession`
and the local `overrideBucket`.  `sess` is the non-null `currentSession`
the screen is rendered with. -/
def handleComplete (sess : Session) (feedback : Feedback) (s : Store) :
    Store × List Request :=
  ({ s with currentSession := Option.none, overrideBucket := Option.none },
   [Request.postComplete sess.id feedback])

/-- `handleBucketSelect` of `index.tsx` (lines 88-95): picking the bucket
that equals `userState?.next_priority_bucket` resets the override to `null`;
any other pick stores it.  When `userState` is `null` the comparison with
`undefined` is false, so the pick is stored. -/
def handleBucketSelect (s : Store) (bucket : String) : Store :=
  match s.userState with
  | Option.some u =>
      if bucket = u.next_priority_bucket then
        { s with overrideBucket := Option.none }
      else
        { s with overrideBucket := Option.some bucket }
  | Option.none => { s with overrideBucket := Option.some bucket }

/-- The body `generateSession` of `index.tsx` (lines 64-86) POSTs to
`/api/generate`: the questionnaire spread together with
`override_bucket: overrideBucket || undefined`. -/
def generatePayload (q : Questionnaire) (s : Store) : Request :=
  Request.postGenerate q (jsOrUndef s.overrideBucket)

/-- `toggleCooldownOverride` of `trainingStore.ts` (lines 87-103): with no
`userState` it returns before any fetch; otherwise it PUTs the negation of
the stored flag to `/api/settings` and replaces `userState` with the
response body `resp`. -/
def toggleCooldownOverride (s : Store) (resp : UserState) :
    Store × List Request :=
  match s.userState with
  | Option.none => (s, [])
  | Option.some u =>
      ({ s with userState := Option.some resp },
       [Request.putSettingsOverride (!u.cooldown_override)])

/-- A parsed JSON response body as `handleSwap` sees it after
`await response.json()`: either an exercise object or an error payload such
as FastAPI's `{"detail": ...}` — `fetch` does not reject on 4xx/5xx and the
handler never inspects `response.ok`. -/
inductive SwapJson
  | exObj (e : Exercise)
  | errObj (detail : String)
deriving DecidableEq, Repr

/-- JS `ex.id` on such a value: an error payload has no `id` field, so the
access yields `undefined`, which compares unequal to every string id. -/
def SwapJson.jsId : SwapJson → Option String
  | SwapJson.exObj e => Option.some e.id
  | SwapJson.errObj _ => Option.none

/-- `handleSwap` of `session.tsx` (lines 114-137): POSTs
`{session_id, exercise_id, equipment}` to `/api/swap` and then maps the
local exercise list, replacing every element whose `id` equals
`exerciseId` with the parsed response body `resp` — whatever that body is. -/
def handleSwap (sess : Session) (exercises : List SwapJson)
    (exerciseId : String) (resp : SwapJson) : List SwapJson × List Request :=
  (exercises.map (fun ex =>
      if ex.jsId = Option.some exerciseId then resp else ex),
   [Request.postSwap sess.id exerciseId sess.equipment])

/-- `handleReroll` of `session.tsx` (lines 95-112): returns before any fetch
when `lastQuestionnaire` is `null`; otherwise POSTs the saved questionnaire
(and nothing else — no preserve flags) to `/api/reroll` and installs the
response session. -/
def handleReroll (s : Store) (resp : Session) : Store × List Request :=
  match s.lastQuestionnaire with
  | Option.none => (s, [])
  | Option.some q =>
      ({ s with currentSession := Option.some resp }, [Request.postReroll q])

/-! ### The decision engine, modelled from the spec

`backend/server.py` is not among the sources at hand; the definitions below
follow the spec's §3-§4 and §6 word for word. -/

/-- Modelled from the spec: the `ExerciseDef` library record of §3
(missing source: `backend/server.py`). -/
structure ExerciseDef where
  id : String
  name : String
  category : String
  equipment : List Equip
  bilateral : Bool
  is_anchor : Bool
  is_power : Bool
  prescription_type : String
deriving DecidableEq, Repr

/-- Modelled from the spec: the `ProtocolDef` library record of §3
(missing source: `backend/server.py`).  The source field `example` is a
Lean keyword and is rendered `exampleText`. -/
structure ProtocolDef where
  id : String
  name : String
  prescription_type : String
  description : String
  exampleText : String
  sets : String
  reps : Option String
  hold_time : Option String
  time : Option String
  rest : String
  tempo : Option String
  is_easy_day : Bool
deriving DecidableEq, Repr

/-- The prescription types whose protocols populate `reps` (§3 invariant). -/
def repsTypes : List String := ["KB_STRENGTH", "BW_DYNAMIC", "POWER_SWING"]

/-- A volume field that is actually populated: present and not an
empty-string placeholder. -/
def populated (o : Option String) : Prop :=
  o ≠ Option.none ∧ o ≠ Option.some ""

instance (o : Option String) : Decidable (populated o) := by
  unfold populated
  infer_instance

/-- The §3 invariant on a `ProtocolDef`: the populated volume field is
determined solely by `prescription_type`, exactly one of the three is
populated (with a real value, not an empty-string placeholder) and the
other two are absent. -/
def protocolWF (p : ProtocolDef) : Prop :=
  (p.prescription_type ∈ repsTypes →
      populated p.reps ∧ p.hold_time = Option.none ∧ p.time = Option.none) ∧
  (p.prescription_type = "ISOMETRIC_HOLD" →
      populated p.hold_time ∧ p.reps = Option.none ∧ p.time = Option.none) ∧
  ((p.prescription_type = "CARRY_TIME" ∨ p.prescription_type = "CRAWL_TIME") →
      populated p.time ∧ p.reps = Option.none ∧ p.hold_time = Option.none)

instance (p : ProtocolDef) : Decidable (protocolWF p) := by
  unfold protocolWF
  infer_instance

/-- Modelled from the spec: §4.1 rule 3, classification from
{feeling, sleep} once rules 1 and 2 did not fire (missing source:
`backend/server.py`). -/
def classifyBase (f : Feeling) (sl : Sleep) : DayType :=
  if f = Feeling.great ∧ sl = Sleep.good then DayType.hard
  else if Bool.xor (decide (f = Feeling.great)) (decide (sl = Sleep.good)) then
    DayType.medium
  else if f = Feeling.ok then DayType.medium
  else DayType.easy

/-- The §4.1 rule-1 "real trigger" condition. -/
def realTrigger (q : Questionnaire) : Prop :=
  q.pain = Pain.present ∨ q.feeling = Feeling.bad ∨ q.sleep = Sleep.bad

instance (q : Questionnaire) : Decidable (realTrigger q) := by
  unfold realTrigger
  infer_instance

/-- Modelled from the spec: the §4.1 Day-Type Classifier, returning the day
type together with the user state after the classifier's cooldown effects
(missing source: `backend/server.py`, `determine_day_type`).  Rule 1 sets
`cooldown_counter := 2` and forces `cooldown_override := false`; rule 2
leaves both untouched; rule 3 is `classifyBase`. -/
def determineDayType (q : Questionnaire) (st : UserState) :
    DayType × UserState :=
  if realTrigger q then
    (DayType.easy, { st with cooldown_counter := 2, cooldown_override := false })
  else if 0 < st.cooldown_counter ∧ st.cooldown_override = false then
    (DayType.easy, st)
  else
    (classifyBase q.feeling q.sleep, st)

/-- Modelled from the spec: the §4.3 fixed rotation cycle
squat → pull → hinge → push → squat (missing source: `backend/server.py`;
the cycle order is also the client's `BUCKET_ORDER` in `index.tsx`). -/
def bucketSuccessor (b : String) : String :=
  if b = "squat" then "pull"
  else if b = "pull" then "hinge"
  else if b = "hinge" then "push"
  else "squat"

/-- Modelled from the spec: the §4.4 Power Gate.  The fortnightly period
comparison is week-aligned and left abstract here as `samePeriod`
(the spec's §9 itself flags its exact boundary as an open question). -/
def powerGate (day : DayType) (freq : PowerFrequency)
    (lastUsedAbsent : Bool) (samePeriod : Bool) : Bool :=
  if day = DayType.easy then false
  else
    match freq with
    | PowerFrequency.weekly => true
    | PowerFrequency.fortnightly => lastUsedAbsent || !samePeriod

/-- The fixed category fill order of §4.5. -/
def categoryFillOrder : List String :=
  ["squat", "hinge", "push", "pull", "carry", "crawl"]

/-- Uniform choice from a candidate list, driven by one sample `r` of the
re-seedable randomness source (§5). -/
def pickFrom {α : Type} (l : List α) (r : Nat) : Option α :=
  l[r % l.length]?

/-- Modelled from the spec: one §4.5 in-category selection — anchor
exercises are preferred as the first selection when available, otherwise a
uniform choice among the candidates. -/
def pickWithAnchor (cands : List ExerciseDef) (r : Nat) : Option ExerciseDef :=
  let anchors := cands.filter (fun e => e.is_anchor)
  let pool := if anchors.isEmpty then cands else anchors
  pickFrom pool r

/-- Modelled from the spec: the §4.5 Exercise Selector — filter the library
to the requested equipment context, select for the resolved bucket first,
then fill the remaining categories in fixed order, skipping categories with
no equipment-compatible candidate (missing source: `backend/server.py`). -/
def selectExercises (lib : List ExerciseDef) (equip : Equip)
    (bucket : String) (rng : Nat → Nat) : List ExerciseDef :=
  let compat := lib.filter (fun e => decide (equip ∈ e.equipment))
  let cats := bucket :: categoryFillOrder.filter (fun c => decide (c ≠ bucket))
  cats.enum.filterMap (fun ci =>
    pickWithAnchor (compat.filter (fun e => decide (e.category = ci.2))) (rng ci.1))

/-- Modelled from the spec: the §4.6 protocol candidate set — protocols
matching the prescription type, restricted on easy days to
`is_easy_day = true` ones with fallback to the full matching set. -/
def protocolCandidates (protocols : List ProtocolDef) (pt : String)
    (day : DayType) : List ProtocolDef :=
  let matching := protocols.filter (fun p => decide (p.prescription_type = pt))
  if day = DayType.easy then
    let easies := matching.filter (fun p => p.is_easy_day)
    if easies.isEmpty then matching else easies
  else matching

/-- Modelled from the spec: the §4.6 Protocol Assigner's copy step — sets,
the volume fields, rest, tempo and description are copied verbatim from the
chosen `ProtocolDef`; `load_level` is an external input. -/
def assignProtocol (e : ExerciseDef) (p : ProtocolDef) (load : String) :
    Exercise :=
  { id := e.id, name := e.name, category := e.category,
    prescription_type := e.prescription_type, load_level := load,
    protocol_id := p.id, protocol_name := p.name,
    protocol_description := p.description, sets := p.sets,
    reps := p.reps, hold_time := p.hold_time, time := p.time,
    rest := p.rest, tempo := p.tempo, notes := Option.none }

/-- Modelled from the spec: selection plus protocol assignment for every
slot (§4.5-§4.7); power exercises are removed from the pool unless the
Power Gate allows them. -/
def assembleExercises (lib : List ExerciseDef) (protocols : List ProtocolDef)
    (equip : Equip) (bucket : String) (day : DayType) (powerOK : Bool)
    (rng : Nat → Nat) (load : String) : List Exercise :=
  let pool := if powerOK then lib else lib.filter (fun e => !e.is_power)
  (selectExercises pool equip bucket rng).enum.filterMap (fun ie =>
    (pickFrom (protocolCandidates protocols ie.2.prescription_type day)
        (rng (1000 + ie.1))).map
      (fun p => assignProtocol ie.2 p load))

/-- Modelled from the spec: the `Generate` boundary operation (§4.7, §6;
missing source: `backend/server.py`).  The resolved bucket is the override
when present, else `UserState.next_priority_bucket`; the session echoes
`time_available` and `equipment`; the returned state carries only the
classifier's cooldown effects. -/
def generateHandler (q : Questionnaire) (ob : Option String) (st : UserState)
    (lib : List ExerciseDef) (protocols : List ProtocolDef) (rng : Nat → Nat)
    (load newId newTimestamp : String) (samePeriod : Bool) :
    Session × UserState :=
  let r := determineDayType q st
  let bucket := ob.getD st.next_priority_bucket
  let powerOK := powerGate r.1 st.power_frequency st.power_last_used.isNone samePeriod
  ({ id := newId, timestamp := newTimestamp, day_type := r.1,
     priority_bucket := bucket,
     exercises := assembleExercises lib protocols q.equipment bucket r.1
       powerOK rng load,
     time_slot := q.time_available, equipment := q.equipment,
     week_mode := st.week_mode }, r.2)

/-- Modelled from the spec: the §4.9 Reroll Handler (missing source:
`backend/server.py`).  Day type and bucket are recomputed only when the
corresponding preserve flag is false, otherwise reused from the session
being rerolled; every slot is re-selected with fresh randomness; the
handler is read-only with respect to `UserState` (§7). -/
def rerollHandler (q : Questionnaire)
    (preserve_day_type preserve_priority_bucket : Bool) (prev : Session)
    (st : UserState) (lib : List ExerciseDef) (protocols : List ProtocolDef)
    (rng : Nat → Nat) (load newId newTimestamp : String)
    (samePeriod : Bool) : Session :=
  let day := if preserve_day_type then prev.day_type
    else (determineDayType q st).1
  let bucket := if preserve_priority_bucket then prev.priority_bucket
    else st.next_priority_bucket
  let powerOK := powerGate day st.power_frequency st.power_last_used.isNone samePeriod
  { id := newId, timestamp := newTimestamp, day_type := day,
    priority_bucket := bucket,
    exercises := assembleExercises lib protocols q.equipment bucket day
      powerOK rng load,
    time_slot := q.time_available, equipment := q.equipment,
    week_mode := st.week_mode }

/-- Modelled from the spec: the §4.10 Completion Handler (missing source:
`backend/server.py`).  `not_good` is a real cooldown trigger; `good`
decrements an active cooldown; the rotation always advances from the
stored `next_priority_bucket`; a completed power exercise stamps
`power_last_used`; `last_hard_day` records whether the day was hard. -/
def completeHandler (sess : Session) (feedback : Feedback) (st : UserState)
    (now : String) : UserState :=
  let st1 :=
    match feedback with
    | Feedback.not_good =>
        { st with cooldown_counter := 2, cooldown_override := false }
    | Feedback.good =>
        if 0 < st.cooldown_counter then
          { st with cooldown_counter := st.cooldown_counter - 1 }
        else st
  { st1 with
    next_priority_bucket := bucketSuccessor st.next_priority_bucket,
    power_last_used :=
      if sess.exercises.any (fun e => decide (e.prescription_type = "POWER_SWING")) then
        Option.some now
      else st.power_last_used,
    last_hard_day := decide (sess.day_type = DayType.hard) }

/-- The JSON body of a `PUT /api/settings` request (§6 `UpdateSettings`):
each field optional. -/
structure SettingsPayload where
  week_mode : Option WeekMode
  power_frequency : Option PowerFrequency
  cooldown_override : Option Bool
deriving DecidableEq, Repr

/-- Modelled from the spec: the §6 `UpdateSettings` boundary operation
(missing source: `backend/server.py`) — each supplied field is stored into
`UserState` unconditionally; absent fields keep their stored value. -/
def updateSettings (st : UserState) (p : SettingsPayload) : UserState :=
  { st with
    week_mode := p.week_mode.getD st.week_mode,
    power_frequency := p.power_frequency.getD st.power_frequency,
    cooldown_override := p.cooldown_override.getD st.cooldown_override }

/-! ### Concrete sample values for the instance theorems -/

/-- A concrete library exercise. -/
def sampleExerciseDef : ExerciseDef :=
  { id := "gs", name := "Goblet Squat", category := "squat",
    equipment := [Equip.home, Equip.minimal], bilateral := true,
    is_anchor := true, is_power := false,
    prescription_type := "KB_STRENGTH" }

/-- A concrete protocol matching `sampleExerciseDef`. -/
def sampleProtocol : ProtocolDef :=
  { id := "p1", name := "Straight Sets", prescription_type := "KB_STRENGTH",
    description := "Classic straight sets", exampleText := "3 x 8 at one load",
    sets := "3", reps := Option.some "8", hold_time := Option.none,
    time := Option.none, rest := "90s", tempo := Option.none,
    is_easy_day := false }

/-- The session exercise assembled from the two samples. -/
def sampleExercise : Exercise :=
  assignProtocol sampleExerciseDef sampleProtocol "moderate"

/-- A concrete user state with no active cooldown. -/
def sampleUserState : UserState :=
  { id := "u1", next_priority_bucket := "squat", week_mode := WeekMode.A,
    cooldown_counter := 0, cooldown_override := false,
    power_last_used := Option.none, last_hard_day := false,
    power_frequency := PowerFrequency.fortnightly }

/-- A concrete all-good questionnaire. -/
def sampleQuestionnaire : Questionnaire :=
  { feeling := Feeling.great, sleep := Sleep.good, pain := Pain.none,
    time_available := TimeAvailable.t30_45, equipment := Equip.minimal }

/-- The same questionnaire with pain reported: a §4.1 real trigger. -/
def triggerQuestionnaire : Questionnaire :=
  { sampleQuestionnaire with pain := Pain.present }

/-- A concrete session as `Generate` produces it from the samples. -/
def sampleSession : Session :=
  (generateHandler sampleQuestionnaire Option.none sampleUserState
    [sampleExerciseDef] [sampleProtocol] (fun _ => 0) "moderate" "s1"
    "2026-01-01T08:00:00Z" false).1

/-- A concrete client store holding the sample session and state. -/
def sampleStore : Store :=
  { currentSession := Option.some sampleSession,
    userState := Option.some sampleUserState,
    lastQuestionnaire := Option.some sampleQuestionnaire,
    overrideBucket := Option.none }

/-! ### The claims -/

/-- C1: discarding a session performs no Complete call and leaves the
stored `UserState` unchanged — `handleDiscard` issues no network request at
all and mutates only the local `currentSession`, leaving `userState`,
`lastQuestionnaire` and `overrideBucket` untouched. -/
theorem discard_is_pure_local_C1 (s : Store) :
    (handleDiscard s).2 = [] ∧
    (handleDiscard s).1.userState = s.userState ∧
    (handleDiscard s).1.lastQuestionnaire = s.lastQuestionnaire ∧
    (handleDiscard s).1.overrideBucket = s.overrideBucket ∧
    (handleDiscard s).1.currentSession = Option.none :=
  ⟨rfl, rfl, rfl, rfl, rfl⟩

/-- C3, evaluated at the failing input: when Swap fails and the response
body is the error payload rather than a replacement exercise, `handleSwap`
splices that payload into the exercise list in place of the original
exercise — the caller does not retain the original, contrary to the spec's
error-handling design. -/
theorem swap_splices_error_payload_C3 :
    (handleSwap sampleSession [SwapJson.exObj sampleExercise] "gs"
        (SwapJson.errObj "No alternative exercise available")).1
      = [SwapJson.errObj "No alternative exercise available"] ∧
    (handleSwap sampleSession [SwapJson.exObj sampleExercise] "gs"
        (SwapJson.errObj "No alternative exercise available")).1
      ≠ [SwapJson.exObj sampleExercise] := by
  constructor
  · decide
  · decide

/-- C5: for every questionnaire with pain present, bad feeling or bad
sleep, `Generate` classifies the day easy and the resulting persistent
state has `cooldown_counter = 2` and `cooldown_override = false`. -/
theorem generate_real_trigger_C5 (q : Questionnaire) (ob : Option String)
    (st : UserState) (lib : List ExerciseDef) (protocols : List ProtocolDef)
    (rng : Nat → Nat) (load newId newTimestamp : String) (samePeriod : Bool)
    (h : q.pain = Pain.present ∨ q.feeling = Feeling.bad ∨ q.sleep = Sleep.bad) :
    (generateHandler q ob st lib protocols rng load newId newTimestamp
        samePeriod).1.day_type = DayType.easy ∧
    (generateHandler q ob st lib protocols rng load newId newTimestamp
        samePeriod).2.cooldown_counter = 2 ∧
    (generateHandler q ob st lib protocols rng load newId newTimestamp
        samePeriod).2.cooldown_override = false := by
  have ht : realTrigger q := h
  unfold generateHandler determineDayType
  simp [if_pos ht]

/-- C5 at a concrete trigger questionnaire. -/
theorem generate_real_trigger_C5_witness :
    ((triggerQuestionnaire.pain = Pain.present ∨
        triggerQuestionnaire.feeling = Feeling.bad ∨
        triggerQuestionnaire.sleep = Sleep.bad) ∧
      (generateHandler triggerQuestionnaire Option.none sampleUserState
          [sampleExerciseDef] [sampleProtocol] (fun _ => 0) "moderate" "s3"
          "2026-01-03T08:00:00Z" false).1.day_type = DayType.easy ∧
      (generateHandler triggerQuestionnaire Option.none sampleUserState
          [sampleExerciseDef] [sampleProtocol] (fun _ => 0) "moderate" "s3"
          "2026-01-03T08:00:00Z" false).2.cooldown_counter = 2 ∧
      (generateHandler triggerQuestionnaire Option.none sampleUserState
          [sampleExerciseDef] [sampleProtocol] (fun _ => 0) "moderate" "s3"
          "2026-01-03T08:00:00Z" false).2.cooldown_override = false) :=
  ⟨Or.inl (by decide),
   generate_real_trigger_C5 triggerQuestionnaire Option.none sampleUserState
     [sampleExerciseDef] [sampleProtocol] (fun _ => 0) "moderate" "s3"
     "2026-01-03T08:00:00Z" false (Or.inl (by decide))⟩

/-- C10: when no user state has been fetched yet, `toggleCooldownOverride`
returns immediately — no HTTP request and an unchanged store. -/
theorem toggle_without_state_noop_C10 (s : Store) (resp : UserState)
    (h : s.userState = Option.none) :
    toggleCooldownOverride s resp = (s, []) := by
  unfold toggleCooldownOverride
  rw [h]

/-- C2: a Reroll with both preserve flags true (the defaults, which the
client relies on by POSTing only the original questionnaire) returns a
session with the same `day_type`, `priority_bucket`, `equipment` and
`time_slot` as the session being rerolled (which echoes the original
questionnaire's equipment and time slot), only the exercise/protocol
choices being re-drawn. -/
theorem reroll_preserves_context_C2 (q : Questionnaire) (prev : Session)
    (st : UserState) (lib : List ExerciseDef) (protocols : List ProtocolDef)
    (rng : Nat → Nat) (load newId newTimestamp : String) (samePeriod : Bool)
    (heq : prev.equipment = q.equipment)
    (hts : prev.time_slot = q.time_available) :
    (rerollHandler q true true prev st lib protocols rng load newId
        newTimestamp samePeriod).day_type = prev.day_type ∧
    (rerollHandler q true true prev st lib protocols rng load newId
        newTimestamp samePeriod).priority_bucket = prev.priority_bucket ∧
    (rerollHandler q true true prev st lib protocols rng load newId
        newTimestamp samePeriod).equipment = prev.equipment ∧
    (rerollHandler q true true prev st lib protocols rng load newId
        newTimestamp samePeriod).time_slot = prev.time_slot ∧
    (∀ (s : Store) (resp : Session), s.lastQuestionnaire = Option.some q →
        (handleReroll s resp).2 = [Request.postReroll q]) := by
  refine ⟨rfl, rfl, heq.symm, hts.symm, ?_⟩
  intro s resp hq
  unfold handleReroll
  rw [hq]

/-- C2 at concrete inputs: rerolling the sample generated session keeps its
day type and priority bucket. -/
theorem reroll_preserves_context_C2_witness :
    sampleSession.equipment = sampleQuestionnaire.equipment ∧
    sampleSession.time_slot = sampleQuestionnaire.time_available ∧
    (rerollHandler sampleQuestionnaire true true sampleSession sampleUserState
        [sampleExerciseDef] [sampleProtocol] (fun n => n + 1) "moderate" "s2"
        "2026-01-02T08:00:00Z" false).day_type = sampleSession.day_type ∧
    (rerollHandler sampleQuestionnaire true true sampleSession sampleUserState
        [sampleExerciseDef] [sampleProtocol] (fun n => n + 1) "moderate" "s2"
        "2026-01-02T08:00:00Z" false).priority_bucket
      = sampleSession.priority_bucket :=
  ⟨by decide, by decide,
   (reroll_preserves_context_C2 sampleQuestionnaire sampleSession
      sampleUserState [sampleExerciseDef] [sampleProtocol] (fun n => n + 1)
      "moderate" "s2" "2026-01-02T08:00:00Z" false (by decide) (by decide)).1,
   (reroll_preserves_context_C2 sampleQuestionnaire sampleSession
      sampleUserState [sampleExerciseDef] [sampleProtocol] (fun n => n + 1)
      "moderate" "s2" "2026-01-02T08:00:00Z" false (by decide) (by decide)).2.1⟩

/-- C4: for a session exercise assembled from a well-formed protocol of the
matching prescription type, exactly one volume field is populated, the
other two are absent, and `getVolumeDisplay` consumes precisely that field:
`hold_time` for ISOMETRIC_HOLD, `time` for CARRY_TIME/CRAWL_TIME, `reps`
for KB_STRENGTH/BW_DYNAMIC/POWER_SWING. -/
theorem volume_field_determined_C4 (e : ExerciseDef) (p : ProtocolDef)
    (load : String) (hwf : protocolWF p)
    (hm : p.prescription_type = e.prescription_type) :
    ((assignProtocol e p load).prescription_type = "ISOMETRIC_HOLD" →
        (assignProtocol e p load).reps = Option.none ∧
        (assignProtocol e p load).time = Option.none ∧
        ∃ h, h ≠ "" ∧ (assignProtocol e p load).hold_time = Option.some h ∧
          getVolumeDisplay (assignProtocol e p load) = ("Hold", h)) ∧
    (((assignProtocol e p load).prescription_type = "CARRY_TIME" ∨
        (assignProtocol e p load).prescription_type = "CRAWL_TIME") →
        (assignProtocol e p load).reps = Option.none ∧
        (assignProtocol e p load).hold_time = Option.none ∧
        ∃ t, t ≠ "" ∧ (assignProtocol e p load).time = Option.some t ∧
          getVolumeDisplay (assignProtocol e p load) = ("Time", t)) ∧
    ((assignProtocol e p load).prescription_type ∈ repsTypes →
        (assignProtocol e p load).hold_time = Option.none ∧
        (assignProtocol e p load).time = Option.none ∧
        ∃ r, r ≠ "" ∧ (assignProtocol e p load).reps = Option.some r ∧
          getVolumeDisplay (assignProtocol e p load) = ("Reps", r)) := by
  obtain ⟨hwr, hwh, hwt⟩ := hwf
  refine ⟨?_, ?_, ?_⟩
  · intro hpt
    have he : e.prescription_type = "ISOMETRIC_HOLD" := hpt
    have hp : p.prescription_type = "ISOMETRIC_HOLD" := hm.trans he
    obtain ⟨⟨hne, hnee⟩, hr, ht⟩ := hwh hp
    refine ⟨hr, ht, ?_⟩
    cases hh : p.hold_time with
    | none => exact absurd hh hne
    | some h =>
        have hhe : h ≠ "" := fun contra => hnee (contra ▸ hh)
        exact ⟨h, hhe, hh,
          by simp [getVolumeDisplay, assignProtocol, he, hh, jsOr, hhe]⟩
  · intro hpt
    have he : e.prescription_type = "CARRY_TIME" ∨
        e.prescription_type = "CRAWL_TIME" := hpt
    have hp : p.prescription_type = "CARRY_TIME" ∨
        p.prescription_type = "CRAWL_TIME" := by
      rcases he with h1 | h1
      · exact Or.inl (hm.trans h1)
      · exact Or.inr (hm.trans h1)
    obtain ⟨⟨hne, hnee⟩, hr, hh⟩ := hwt hp
    refine ⟨hr, hh, ?_⟩
    cases ht : p.time with
    | none => exact absurd ht hne
    | some t =>
        have hte : t ≠ "" := fun contra => hnee (contra ▸ ht)
        rcases he with h1 | h1 <;>
          exact ⟨t, hte, ht,
            by simp [getVolumeDisplay, assignProtocol, h1, ht, jsOr, hte]⟩
  · intro hpt
    have he : e.prescription_type ∈ repsTypes := hpt
    have hp : p.prescription_type ∈ repsTypes := hm.symm ▸ he
    have he3 : e.prescription_type = "KB_STRENGTH" ∨
        e.prescription_type = "BW_DYNAMIC" ∨
        e.prescription_type = "POWER_SWING" := by
      simpa [repsTypes] using he
    obtain ⟨⟨hne, hnee⟩, hh, ht⟩ := hwr hp
    refine ⟨hh, ht, ?_⟩
    cases hr : p.reps with
    | none => exact absurd hr hne
    | some r =>
        have hre : r ≠ "" := fun contra => hnee (contra ▸ hr)
        rcases he3 with h1 | h1 | h1 <;>
          exact ⟨r, hre, hr,
            by simp [getVolumeDisplay, assignProtocol, h1, hr, jsOr, hre]⟩

/-- C4 at the concrete sample pair: the assembled kettlebell-strength
exercise populates `reps` and renders it. -/
theorem volume_field_determined_C4_witness :
    protocolWF sampleProtocol ∧
    sampleProtocol.prescription_type = sampleExerciseDef.prescription_type ∧
    getVolumeDisplay (assignProtocol sampleExerciseDef sampleProtocol
        "moderate") = ("Reps", "8") := by
  refine ⟨by decide, rfl, ?_⟩
  obtain ⟨-, -, r, -, hrep, hdisp⟩ :=
    (volume_field_determined_C4 sampleExerciseDef sampleProtocol "moderate"
      (by decide) rfl).2.2 (by decide)
  have hr8 : "8" = r := Option.some.inj hrep
  exact hr8 ▸ hdisp

/-- C6: an override bucket is one-shot — `Generate` never changes
`next_priority_bucket`, Completion advances the rotation from the stored
`next_priority_bucket` regardless of the bucket the session actually used,
and the client clears its local override on a successful Complete. -/
theorem override_one_shot_C6 :
    (∀ (q : Questionnaire) (ob : Option String) (st : UserState)
        (lib : List ExerciseDef) (protocols : List ProtocolDef)
        (rng : Nat → Nat) (load newId newTimestamp : String)
        (samePeriod : Bool),
        (generateHandler q ob st lib protocols rng load newId newTimestamp
            samePeriod).2.next_priority_bucket = st.next_priority_bucket) ∧
    (∀ (sess : Session) (feedback : Feedback) (st : UserState)
        (now : String),
        (completeHandler sess feedback st now).next_priority_bucket
          = bucketSuccessor st.next_priority_bucket) ∧
    (∀ (sess : Session) (feedback : Feedback) (s : Store),
        (handleComplete sess feedback s).1.overrideBucket = Option.none) := by
  refine ⟨?_, fun _ _ _ _ => rfl, fun _ _ _ => rfl⟩
  intro q ob st lib protocols rng load newId newTimestamp samePeriod
  show (determineDayType q st).2.next_priority_bucket = st.next_priority_bucket
  unfold determineDayType
  split
  · rfl
  split
  · rfl
  · rfl

/-- C7: the user toggle of `cooldown_override` is only a settings write of
the negated stored flag; the stored override can change the day type only
while `cooldown_counter > 0`, is inert when the counter is zero, and is
stored by `UpdateSettings` either way. -/
theorem cooldown_override_semantics_C7 (s : Store) (u resp : UserState)
    (hs : s.userState = Option.some u) (q : Questionnaire) (st : UserState)
    (hc : st.cooldown_counter = 0) (b₁ b₂ : Bool) :
    (toggleCooldownOverride s resp).2
      = [Request.putSettingsOverride (!u.cooldown_override)] ∧
    (determineDayType q { st with cooldown_override := b₁ }).1
      = (determineDayType q { st with cooldown_override := b₂ }).1 ∧
    (updateSettings st
        { week_mode := Option.none, power_frequency := Option.none,
          cooldown_override := Option.some b₁ }).cooldown_override = b₁ ∧
    (∃ (q' : Questionnaire) (st' : UserState), 0 < st'.cooldown_counter ∧
        (determineDayType q' { st' with cooldown_override := true }).1
          ≠ (determineDayType q' { st' with cooldown_override := false }).1) := by
  refine ⟨?_, ?_, rfl, ?_⟩
  · unfold toggleCooldownOverride
    rw [hs]
  · unfold determineDayType
    by_cases h : realTrigger q
    · simp [h]
    · simp [h, hc]
  · exact ⟨sampleQuestionnaire, { sampleUserState with cooldown_counter := 1 },
      by decide, by decide⟩

/-- C7 at concrete inputs: the sample store holds a state with
`cooldown_counter = 0`, and the toggle issues exactly the settings PUT. -/
theorem cooldown_override_semantics_C7_witness :
    sampleStore.userState = Option.some sampleUserState ∧
    sampleUserState.cooldown_counter = 0 ∧
    (toggleCooldownOverride sampleStore sampleUserState).2
      = [Request.putSettingsOverride (!sampleUserState.cooldown_override)] :=
  ⟨rfl, rfl,
   (cooldown_override_semantics_C7 sampleStore sampleUserState
      sampleUserState rfl sampleQuestionnaire sampleUserState rfl true
      false).1⟩

/-- C8: in the focus modal, picking the bucket that equals the stored
`next_priority_bucket` resets the override to `null`, picking any other
bucket stores it, and hence a Generate payload built from the resulting
store never carries `override_bucket` equal to the stored
`next_priority_bucket`. -/
theorem bucket_select_override_C8 (s : Store) (u : UserState)
    (bucket : String) (hs : s.userState = Option.some u) :
    (bucket = u.next_priority_bucket →
        (handleBucketSelect s bucket).overrideBucket = Option.none) ∧
    (bucket ≠ u.next_priority_bucket →
        (handleBucketSelect s bucket).overrideBucket = Option.some bucket) ∧
    (∀ q : Questionnaire,
        generatePayload q (handleBucketSelect s bucket)
          ≠ Request.postGenerate q (Option.some u.next_priority_bucket)) := by
  have hsel : (handleBucketSelect s bucket).overrideBucket =
      (if bucket = u.next_priority_bucket then Option.none
        else Option.some bucket) := by
    simp only [handleBucketSelect, hs]
    split
    · rfl
    · rfl
  refine ⟨fun h => by rw [hsel, if_pos h], fun h => by rw [hsel, if_neg h], ?_⟩
  intro q
  unfold generatePayload jsOrUndef
  rw [hsel]
  by_cases hb : bucket = u.next_priority_bucket
  · rw [if_pos hb]
    simp
  · rw [if_neg hb]
    by_cases he : bucket = ""
    · subst he
      simp
    · simp [he]
      exact hb

/-- C8 at concrete inputs: with stored next bucket `squat`, picking `squat`
resets the override and a payload after picking `pull` cannot carry
`squat`. -/
theorem bucket_select_override_C8_witness :
    sampleStore.userState = Option.some sampleUserState ∧
    (handleBucketSelect sampleStore "squat").overrideBucket = Option.none ∧
    generatePayload sampleQuestionnaire (handleBucketSelect sampleStore "pull")
      ≠ Request.postGenerate sampleQuestionnaire
          (Option.some sampleUserState.next_priority_bucket) :=
  ⟨rfl,
   (bucket_select_override_C8 sampleStore sampleUserState "squat" rfl).1 rfl,
   (bucket_select_override_C8 sampleStore sampleUserState "pull" rfl).2.2
     sampleQuestionnaire⟩

/-- C9: `getVolumeDisplay` is total — every exercise gets a label/value
pair, and a missing volume field is masked by the literal defaults
`10-20s` (hold), `30-60s` (time) and `5` (reps). -/
theorem volume_display_total_C9 (e : Exercise) :
    (∃ label value, getVolumeDisplay e = (label, value)) ∧
    (e.prescription_type = "ISOMETRIC_HOLD" → e.hold_time = Option.none →
        getVolumeDisplay e = ("Hold", "10-20s")) ∧
    ((e.prescription_type = "CARRY_TIME" ∨
        e.prescription_type = "CRAWL_TIME") → e.time = Option.none →
        getVolumeDisplay e = ("Time", "30-60s")) ∧
    (e.prescription_type ≠ "ISOMETRIC_HOLD" →
        e.prescription_type ≠ "CARRY_TIME" →
        e.prescription_type ≠ "CRAWL_TIME" → e.reps = Option.none →
        getVolumeDisplay e = ("Reps", "5")) := by
  refine ⟨⟨(getVolumeDisplay e).1, (getVolumeDisplay e).2, rfl⟩, ?_, ?_, ?_⟩
  · intro hpt hnone
    simp [getVolumeDisplay, hpt, hnone, jsOr]
  · intro hpt hnone
    have hne1 : e.prescription_type ≠ "ISOMETRIC_HOLD" := by
      rcases hpt with h1 | h1 <;> rw [h1] <;> decide
    simp [getVolumeDisplay, hne1, hpt, hnone, jsOr]
  · intro h1 h2 h3 hnone
    simp [getVolumeDisplay, h1, h2, h3, hnone, jsOr]

/-- C9 at a concrete invariant-violating exercise: an isometric hold with
no volume field at all still renders, as `("Hold", "10-20s")`. -/
theorem volume_display_total_C9_witness :
    getVolumeDisplay
        { sampleExercise with
          prescription_type := "ISOMETRIC_HOLD", reps := Option.none }
      = ("Hold", "10-20s") :=
  (volume_display_total_C9
    { sampleExercise with
      prescription_type := "ISOMETRIC_HOLD", reps := Option.none }).2.1
    rfl rfl

/-- C10 at a concrete empty store. -/
theorem toggle_without_state_noop_C10_witness :
    toggleCooldownOverride
        { currentSession := Option.none, userState := Option.none,
          lastQuestionnaire := Option.none, overrideBucket := Option.none }
        sampleUserState
      = ({ currentSession := Option.none, userState := Option.none,
           lastQuestionnaire := Option.none, overrideBucket := Option.none }, []) :=
  toggle_without_state_noop_C10 _ sampleUserState rfl
